import Mathlib

/-!
Verification of the i-Telex server core (txDevITelexSrv.py): the TCP call
acceptor, the outbound character interface, the TNS registration wire codec,
the self-test scheduler state machine, construction-time validation and
shutdown.  Each Python function of the source is embedded as an executable
Lean definition over explicit state; the theorems below settle the spec
claims against these definitions.
-/

namespace ITelexSrv

/-- The 6-byte self-test probe packet (source line 21):
bytes([0x08, 0x04, 0xDE, 0xCA, 0xFB, 0xAD]). -/
def selftest_packet : List Nat := [0x08, 0x04, 0xDE, 0xCA, 0xFB, 0xAD]

/-- The mutable server state touched by one iteration of
thread_srv_accept_incoming_connections (source lines 103-122):
the client registry `self.clients` (socket id paired with peer address),
the last confirmed own address `self.ip_address` (None or a string),
the self-test confirmation event `self.selftest_event`, and the outbound
buffer `self._tx_buffer`. -/
structure SrvState where
  clients : List (Nat × String)
  ip_address : Option String
  selftest_event : Bool
  tx_buffer : List (List Char)
deriving DecidableEq

/-- What one accept-loop iteration does with the incoming socket:
discard it on the probe-recognition path (recording whether the
confirmation event was signalled), send the busy reject and close, or
register it as the active session and start a handler thread. -/
inductive AcceptAction where
  | probe_discard (signaled : Bool)
  | reject
  | start_session
deriving DecidableEq

/-- One iteration of thread_srv_accept_incoming_connections (source lines
106-122), for an accepted socket `client` from peer address `addr` on which
a subsequent recv(128) would return `data`.  Mirrors the source: if the
peer address equals self.ip_address, compare the received bytes with
selftest_packet, set the event on a match, close in either case; otherwise
reject when self.clients is nonempty, else register the client, reset
self._tx_buffer and start the handler. -/
def accept_step (st : SrvState) (client : Nat) (addr : String) (data : List Nat) :
    SrvState × AcceptAction :=
  if st.ip_address = some addr then
    if data = selftest_packet then
      ({ st with selftest_event := true }, AcceptAction.probe_discard true)
    else
      (st, AcceptAction.probe_discard false)
  else if st.clients = [] then
    ({ st with clients := st.clients ++ [(client, addr)], tx_buffer := [] },
      AcceptAction.start_session)
  else
    (st, AcceptAction.reject)

/-- End of thread_srv_handle_client (source line 138): del self.clients[s]. -/
def handle_client_del (st : SrvState) (s : Nat) : SrvState :=
  { st with clients := st.clients.filter (fun p => p.1 != s) }

/-- Python substring containment `needle in haystack` on strings, modelled
on lists of characters: some contiguous slice of the haystack equals the
needle (the empty needle always matches). -/
def pyInStr (needle haystack : List Char) : Bool :=
  (List.range (haystack.length + 1)).any
    (fun i => decide (((haystack.drop i).take needle.length) = needle))

/-- The end-of-session control sequence ESC-Z, Python string literal
given as a character-escape pair. -/
def escZ : List Char := [Char.ofNat 27, 'Z']

/-- write(a, source) (source lines 90-99), acting on self._tx_buffer.
Returns the new buffer and whether disconnect_client() was called.
Mirrors the source: inputs of length other than one append nothing and
tear the session down exactly on the ESC-Z sequence; for one-character
inputs the append is skipped when `source in '<>'` holds (Python substring
containment). -/
def srvWrite (a source : List Char) (tx : List (List Char)) :
    List (List Char) × Bool :=
  if a.length ≠ 1 then
    (tx, decide (a = escZ))
  else if pyInStr source ['<', '>'] then
    (tx, false)
  else
    (tx ++ [a], false)

/-- Python int.to_bytes(length, byteorder="little") for nonnegative values
that fit (source lines 280-287): the `len` least-significant base-256
digits, least significant first. -/
def int_to_bytes_le : Nat → Nat → List Nat
  | 0, _ => []
  | k + 1, v => v % 256 :: int_to_bytes_le k (v / 256)

/-- Little-endian byte-list decoding, used to state what the encoder
serialised. -/
def fromLE : List Nat → Nat
  | [] => 0
  | b :: rest => b + 256 * fromLE rest

/-- The client_update request built by update_tns_record (source lines
276-287): [0x01][0x08], then number as 4 little-endian bytes, pin as 2,
port as 2. -/
def update_tns_record_qry (number tns_pin port : Nat) : List Nat :=
  [0x01, 0x08] ++ int_to_bytes_le 4 number ++ int_to_bytes_le 2 tns_pin
    ++ int_to_bytes_le 2 port

/-- The response-processing tail of update_tns_record (source lines
289-306) on the bytes recv returned.  `some ip` is the success path
(data[0] = 0x02 and data[1] = 0x04: self.ip_address is set to the dotted
join of data[2:6] and True is returned); `none` is every path on which an
exception is raised and caught, so the function returns False: data[0] ≠
0x02, data[1] ≠ 0x04, or an index error on a too-short response. -/
def update_tns_record_decode : List Nat → Option String
  | [] => none
  | [_] => none
  | b0 :: b1 :: rest =>
    if b0 = 0x02 then
      if b1 = 0x04 then
        some (String.intercalate "." ((rest.take 4).map (fun i => toString i)))
      else none
    else none

/-- update_tns_record as a whole: a socket error or timeout before any
response (`none` input) and every invalid response decode to `none`,
meaning the function catches the exception and returns False instead of
raising. -/
def update_tns_record_result (response : Option (List Nat)) : Option String :=
  response.bind update_tns_record_decode

/-- The scheduler state owned by thread_handle_tns_update (source lines
140-228): self.update_tns_fail, self.test_connection_fail and
self.ip_address. -/
structure TnsState where
  update_tns_fail : Nat
  test_connection_fail : Nat
  ip_address : Option String
deriving DecidableEq

/-- The registration step at the top of the outer while loop (source lines
181-190), with the outcome of update_tns_record() supplied as `result`
(`some ip`: returned True after storing ip in self.ip_address; `none`:
returned False leaving the address as it was).  On success
update_tns_fail resets to 0 and test_connection_fail resets to 0 exactly
when it holds the sentinel 666; on failure update_tns_fail increments. -/
def tns_register_step (st : TnsState) (result : Option String) : TnsState :=
  match result with
  | some ip =>
    { update_tns_fail := 0
      test_connection_fail :=
        if st.test_connection_fail = 666 then 0 else st.test_connection_fail
      ip_address := some ip }
  | none =>
    { st with update_tns_fail := st.update_tns_fail + 1 }

/-- One iteration of the inner `for _ in range(180)` loop (source lines
199-228), given the current test_connection_fail and, if a probe happens,
its outcome.  Returns (new counter, whether test_connection() was called,
whether the iteration breaks out of the loop).  A counter at or above 12
skips the probe and becomes the sentinel 666; otherwise the probe runs,
success resets the counter, failure increments it, and the loop breaks
exactly when the counter has just become 6. -/
def tns_inner_iter (fail : Nat) (probe_ok : Bool) : Nat × Bool × Bool :=
  if 12 ≤ fail then
    (666, false, false)
  else
    let f := if probe_ok then 0 else fail + 1
    (f, true, decide (f = 6))

/-- The inner loop after `k` iterations, starting from counter `fail0`,
with `probes i` the outcome test_connection() would report at iteration
`i`.  Returns the counter together with whether the loop has broken; once
broken, no further iteration runs. -/
def tns_inner_run (probes : Nat → Bool) (fail0 : Nat) : Nat → Nat × Bool
  | 0 => (fail0, false)
  | k + 1 =>
    let p := tns_inner_run probes fail0 k
    if p.2 then p
    else
      let step := tns_inner_iter p.1 (probes k)
      (step.1, step.2.2)

/-- Whether iteration `k` of the inner loop actually calls
test_connection(): the loop has not broken before `k` and the counter is
below the suspension threshold. -/
def probedAt (probes : Nat → Bool) (fail0 : Nat) (k : Nat) : Bool :=
  if (tns_inner_run probes fail0 k).2 then false
  else (tns_inner_iter (tns_inner_run probes fail0 k).1 (probes k)).2.1

/-- Python truthiness of an optional integer attribute, as in
`if self._number:` (source line 72): None and 0 are falsy. -/
def pyTruthyOptInt : Option Int → Bool
  | none => false
  | some v => decide (v ≠ 0)

/-- What TelexITelexSrv.__init__ decides (source lines 29-75): the
attributes self._number and self._tns_pin after range validation, and
which background threads get started. -/
structure InitOutcome where
  number_attr : Option Int
  tns_pin_attr : Option Int
  accept_thread_started : Bool
  tns_thread_started : Bool
deriving DecidableEq

/-- TelexITelexSrv.__init__ on a configured number and pin (both already
integers).  Mirrors source lines 37-50: a number outside 1..0xffffffff is
replaced by None; a pin outside 0..0xffff sets both the pin and the number
to None.  The accept thread starts unconditionally (line 60); the TNS
update thread starts only if self._number is truthy (lines 72-75). -/
def TelexITelexSrv_init (number tns_pin : Int) : InitOutcome :=
  let n0 : Option Int :=
    if number ≤ 0 ∨ (0xffffffff : Int) < number then none else some number
  let np : Option Int × Option Int :=
    if tns_pin < 0 ∨ (0xffff : Int) < tns_pin then (none, none)
    else (n0, some tns_pin)
  { number_attr := np.1
    tns_pin_attr := np.2
    accept_thread_started := true
    tns_thread_started := pyTruthyOptInt np.1 }

/-- The service attributes touched by exit() (source lines 77-80) and read
by the two long-running loops: `run` is self.run (set True at line 52,
tested by the accept loop at line 105 and the scheduler loop at line 178);
`underscore_run` is the distinct attribute self._run assigned by exit(). -/
structure SrvLifecycle where
  run : Bool
  underscore_run : Bool
  server_open : Bool
  client_connected : Bool
deriving DecidableEq

/-- exit() (source lines 77-80): disconnect_client(), self._run = False,
self.SERVER.close().  Note it assigns self._run, not self.run. -/
def srv_exit (st : SrvLifecycle) : SrvLifecycle :=
  { st with client_connected := false
            underscore_run := false
            server_open := false }

/-- The accept loop's continuation condition, `while self.run:`
(source line 105). -/
def accept_loop_continues (st : SrvLifecycle) : Bool := st.run

/-- The scheduler loop's continuation condition, `while self.run:`
(source line 178). -/
def tns_update_loop_continues (st : SrvLifecycle) : Bool := st.run

/-! Theorems.  Helper lemmas come first, then one theorem per claim. -/

theorem length_int_to_bytes_le (k v : Nat) : (int_to_bytes_le k v).length = k := by
  induction k generalizing v with
  | zero => rfl
  | succ k ih => simp [int_to_bytes_le, ih]

theorem fromLE_int_to_bytes_le (k v : Nat) :
    fromLE (int_to_bytes_le k v) = v % 256 ^ k := by
  induction k generalizing v with
  | zero => simp [int_to_bytes_le, fromLE, Nat.mod_one]
  | succ k ih =>
    rw [int_to_bytes_le, fromLE, ih, pow_succ, mul_comm (256 ^ k) 256, Nat.mod_mul]

/-- Characterisation of the Python substring test used by write: a string
is a substring of the two-character tag string made of the markers exactly
when it is the empty string, either single marker, or the full pair. -/
theorem pyInStr_angle_chars (s : List Char) :
    pyInStr s ['<', '>'] = true ↔
      (s = [] ∨ s = ['<'] ∨ s = ['>'] ∨ s = ['<', '>']) := by
  constructor
  · intro h
    have hr : List.range 3 = [0, 1, 2] := rfl
    rw [pyInStr] at h
    rw [show (['<', '>'] : List Char).length + 1 = 3 from rfl, hr] at h
    simp [List.any] at h
    match s with
    | [] => exact Or.inl rfl
    | [c] =>
      simp [List.take] at h
      rcases h with rfl | rfl
      · simp
      · simp
    | c :: d :: s2 =>
      simp [List.take] at h
      obtain ⟨rfl, rfl, rfl⟩ := h
      simp
  · rintro (rfl | rfl | rfl | rfl) <;> decide

/-- A one-character input is appended exactly when the source fails the
Python substring filter. -/
theorem srvWrite_append_iff (a source : List Char) (tx : List (List Char))
    (h1 : a.length = 1) :
    (srvWrite a source tx).1 = tx ++ [a] ↔ pyInStr source ['<', '>'] = false := by
  by_cases hp : pyInStr source ['<', '>'] = true
  · simp [srvWrite, h1, hp]
  · simp [srvWrite, h1, hp]

/-- C1: the accept loop keeps at most one active session: admission and
registry deletion preserve the at-most-one bound on the client registry,
and when a session is already registered, any further incoming non-probe
connection yields the reject action with the state — registry entries,
socket set and buffers — left exactly as it was. -/
theorem accept_single_active_session :
    (∀ st c a d, st.clients.length ≤ 1 →
      ((accept_step st c a d).1).clients.length ≤ 1)
    ∧ (∀ st s, (handle_client_del st s).clients.length ≤ st.clients.length)
    ∧ (∀ st c a d, ¬ st.ip_address = some a → st.clients ≠ [] →
        accept_step st c a d = (st, AcceptAction.reject)) := by
  refine ⟨?_, ?_, ?_⟩
  · intro st c a d h
    by_cases h1 : st.ip_address = some a
    · by_cases h2 : d = selftest_packet <;> simp [accept_step, h1, h2] <;> exact h
    · by_cases h3 : st.clients = []
      · simp [accept_step, h1, h3]
      · simp [accept_step, h1, h3]
        exact h
  · intro st s
    exact List.length_filter_le _ _
  · intro st c a d h1 h2
    simp [accept_step, h1, h2]

/-- Witness for C1: with a session from 9.9.9.9 registered and the known
own address 5.6.7.8, a second connection from 7.7.7.7 is rejected and the
state is untouched. -/
theorem accept_single_active_session_witness :
    accept_step ⟨[(1, "9.9.9.9")], some "5.6.7.8", false, []⟩ 2 "7.7.7.7" []
      = (⟨[(1, "9.9.9.9")], some "5.6.7.8", false, []⟩, AcceptAction.reject) :=
  accept_single_active_session.2.2 _ 2 "7.7.7.7" [] (by decide) (by decide)

/-- C2: a connection from the known own address whose received bytes equal
the 6-byte probe sets the self-test confirmation event and is discarded:
the resulting state differs only in the event flag, the registry is
unchanged and no session handler is started. -/
theorem accept_selftest_probe (st : SrvState) (c : Nat) (addr : String)
    (d : List Nat) (ha : st.ip_address = some addr) (hd : d = selftest_packet) :
    accept_step st c addr d
      = ({ st with selftest_event := true }, AcceptAction.probe_discard true) := by
  simp [accept_step, ha, hd]

/-- Witness for C2: the probe from 1.2.3.4 against a state that knows
address 1.2.3.4 sets the event and creates no session. -/
theorem accept_selftest_probe_witness :
    accept_step ⟨[], some "1.2.3.4", false, []⟩ 7 "1.2.3.4" selftest_packet
      = (⟨[], some "1.2.3.4", true, []⟩, AcceptAction.probe_discard true) :=
  accept_selftest_probe _ 7 "1.2.3.4" selftest_packet rfl rfl

/-- C10: any connection from the known own address is discarded without a
session and without the busy reject, whatever bytes it sent; only the
confirmation event depends on whether the payload matched the probe. -/
theorem accept_known_address_discard (st : SrvState) (c : Nat) (addr : String)
    (d : List Nat) (ha : st.ip_address = some addr) :
    (accept_step st c addr d).1.clients = st.clients
    ∧ (accept_step st c addr d).2
        = AcceptAction.probe_discard (decide (d = selftest_packet))
    ∧ (accept_step st c addr d).1.selftest_event
        = (st.selftest_event || decide (d = selftest_packet))
    ∧ (accept_step st c addr d).1.tx_buffer = st.tx_buffer := by
  by_cases hd : d = selftest_packet <;> simp [accept_step, ha, hd]

/-- Witness for C10: a non-probe payload from the known own address is
discarded with no event and no session. -/
theorem accept_known_address_discard_witness :
    (accept_step ⟨[], some "1.2.3.4", false, []⟩ 7 "1.2.3.4" [1, 2, 3]).2
        = AcceptAction.probe_discard false
    ∧ (accept_step ⟨[], some "1.2.3.4", false, []⟩ 7 "1.2.3.4" [1, 2, 3]).1.clients
        = [] :=
  ⟨(accept_known_address_discard _ 7 "1.2.3.4" [1, 2, 3] rfl).2.1,
   (accept_known_address_discard _ 7 "1.2.3.4" [1, 2, 3] rfl).1⟩

/-- C9 counterexample: the claim says a one-character input is appended
whenever the source is neither of the two marker tags, but the source
given as the empty string is filtered as well, because the Python test is
substring containment: write does not append although the empty source is
not one of the two tags. -/
theorem write_source_filter_counterexample :
    srvWrite ['A'] [] [] = ([], false)
    ∧ ([] : List Char) ≠ ['<'] ∧ ([] : List Char) ≠ ['>'] := by decide

/-- C9 (amended): a one-character input is appended exactly when the
source is not a substring of the two-character tag string, that is, none
of the empty string, either single marker, or both markers together; such
a call never disconnects.  Any input of length other than one appends
nothing, and tears the session down exactly when it is the two-character
sequence ESC-Z. -/
theorem write_spec :
    (∀ a source tx, a.length = 1 →
      ((srvWrite a source tx).1 = tx ++ [a] ↔
        ¬(source = [] ∨ source = ['<'] ∨ source = ['>'] ∨ source = ['<', '>']))
      ∧ (srvWrite a source tx).2 = false)
    ∧ (∀ a source tx, a.length ≠ 1 →
        (srvWrite a source tx).1 = tx
        ∧ ((srvWrite a source tx).2 = true ↔ a = escZ)) := by
  constructor
  · intro a source tx h1
    constructor
    · rw [srvWrite_append_iff a source tx h1]
      rw [← pyInStr_angle_chars source]
      cases h : pyInStr source ['<', '>'] <;> simp [h]
    · by_cases hp : pyInStr source ['<', '>'] = true <;> simp [srvWrite, h1, hp]
  · intro a source tx h1
    constructor
    · simp [srvWrite, h1]
    · simp [srvWrite, h1]

/-- Witness for C9 (amended): source x appends, the empty source does not,
and the ESC-Z control sequence triggers the teardown. -/
theorem write_spec_witness :
    (srvWrite ['A'] ['x'] [['B']]).1 = [['B'], ['A']]
    ∧ (srvWrite (['\x1b'] ++ ['Z']) ['x'] []).2 = true :=
  ⟨((write_spec.1 ['A'] ['x'] [['B']] (by decide)).1).mpr (by decide),
   ((write_spec.2 (['\x1b'] ++ ['Z']) ['x'] [] (by decide)).2).mpr (by decide)⟩

/-- C5: the client_update request for number 12345678, pin 4321, port 2342
is exactly 01 08 4E 61 BC 00 E1 10 26 09; in general the request is 10
bytes long, starts with 0x01 0x08, and carries the number as little-endian
uint32 in bytes 2-5, the pin as little-endian uint16 in bytes 6-7 and the
port as little-endian uint16 in bytes 8-9. -/
theorem update_tns_record_qry_format :
    update_tns_record_qry 12345678 4321 2342
      = [0x01, 0x08, 0x4E, 0x61, 0xBC, 0x00, 0xE1, 0x10, 0x26, 0x09]
    ∧ ∀ number tns_pin port : Nat,
        number ≤ 0xffffffff → tns_pin ≤ 0xffff → port ≤ 0xffff →
        (update_tns_record_qry number tns_pin port).length = 10
        ∧ (update_tns_record_qry number tns_pin port).take 2 = [0x01, 0x08]
        ∧ fromLE (((update_tns_record_qry number tns_pin port).drop 2).take 4)
            = number
        ∧ fromLE (((update_tns_record_qry number tns_pin port).drop 6).take 2)
            = tns_pin
        ∧ fromLE ((update_tns_record_qry number tns_pin port).drop 8) = port := by
  refine ⟨by decide, ?_⟩
  intro n p q hn hp hq
  have hA : (int_to_bytes_le 4 n).length = 4 := length_int_to_bytes_le 4 n
  have hB : (int_to_bytes_le 2 p).length = 2 := length_int_to_bytes_le 2 p
  have e1 : update_tns_record_qry n p q
      = 1 :: 8 :: (int_to_bytes_le 4 n
          ++ (int_to_bytes_le 2 p ++ int_to_bytes_le 2 q)) := by
    simp [update_tns_record_qry]
  have h256 : (256 : Nat) ^ 4 = 4294967296 := by norm_num
  have h2562 : (256 : Nat) ^ 2 = 65536 := by norm_num
  have d2 : (update_tns_record_qry n p q).drop 2
      = int_to_bytes_le 4 n ++ (int_to_bytes_le 2 p ++ int_to_bytes_le 2 q) := by
    rw [e1]
    rfl
  have d6 : (update_tns_record_qry n p q).drop 6
      = int_to_bytes_le 2 p ++ int_to_bytes_le 2 q := by
    rw [e1]
    show (int_to_bytes_le 4 n
        ++ (int_to_bytes_le 2 p ++ int_to_bytes_le 2 q)).drop 4 = _
    exact List.drop_left' hA
  have d8 : (update_tns_record_qry n p q).drop 8 = int_to_bytes_le 2 q := by
    have h0 : (update_tns_record_qry n p q).drop 8
        = ((update_tns_record_qry n p q).drop 6).drop 2 := by
      rw [List.drop_drop]
    rw [h0, d6, List.drop_left' hB]
  refine ⟨?_, ?_, ?_, ?_, ?_⟩
  · rw [e1]
    simp [length_int_to_bytes_le]
  · rw [e1]
    rfl
  · rw [d2, List.take_left' hA, fromLE_int_to_bytes_le]
    exact Nat.mod_eq_of_lt (by omega)
  · rw [d6, List.take_left' hB, fromLE_int_to_bytes_le]
    exact Nat.mod_eq_of_lt (by omega)
  · rw [d8, fromLE_int_to_bytes_le]
    exact Nat.mod_eq_of_lt (by omega)

/-- Witness for C5: the general format statement evaluated at the concrete
registration triple. -/
theorem update_tns_record_qry_format_witness :
    (update_tns_record_qry 12345678 4321 2342).length = 10
    ∧ fromLE (((update_tns_record_qry 12345678 4321 2342).drop 2).take 4)
        = 12345678 :=
  have h := update_tns_record_qry_format.2 12345678 4321 2342
    (by decide) (by decide) (by decide)
  ⟨h.1, h.2.2.1⟩

/-- C6: the response 02 04 01 02 03 04 decodes to the known address
1.2.3.4 and success; any response whose second byte differs from 0x04
while the first is 0x02 fails, any response whose first byte differs from
0x02 fails, and a socket error or timeout with no response is likewise a
non-raising failure outcome. -/
theorem update_tns_record_decode_spec :
    update_tns_record_decode [0x02, 0x04, 0x01, 0x02, 0x03, 0x04]
      = some "1.2.3.4"
    ∧ (∀ b1 rest, b1 ≠ 0x04 →
        update_tns_record_decode (0x02 :: b1 :: rest) = none)
    ∧ (∀ b0 rest, b0 ≠ 0x02 → update_tns_record_decode (b0 :: rest) = none)
    ∧ update_tns_record_result none = none := by
  refine ⟨by decide, ?_, ?_, rfl⟩
  · intro b1 rest h
    simp [update_tns_record_decode, h]
  · intro b0 rest h
    cases rest with
    | nil => rfl
    | cons b1 r => simp [update_tns_record_decode, h]

/-- Witness for C6: a wrong length byte and a wrong type byte both decode
to the failure outcome. -/
theorem update_tns_record_decode_spec_witness :
    update_tns_record_decode [0x02, 0x05] = none
    ∧ update_tns_record_decode [0x03, 0x04] = none :=
  ⟨update_tns_record_decode_spec.2.1 5 [] (by decide),
   update_tns_record_decode_spec.2.2.1 3 [4] (by decide)⟩

/-- C7 (evidence of the code bug): exit() disconnects the client, clears
the distinct attribute written as underscore run and closes the listening
socket, but it leaves the attribute actually tested by the accept loop and
the scheduler loop set, so neither loop observes a cleared running flag. -/
theorem exit_leaves_run_flag_set :
    srv_exit ⟨true, true, true, true⟩ = ⟨true, false, false, false⟩
    ∧ accept_loop_continues (srv_exit ⟨true, true, true, true⟩) = true
    ∧ tns_update_loop_continues (srv_exit ⟨true, true, true, true⟩) = true := by
  decide

/-- C8: a node number outside 1..0xffffffff or a pin outside 0..0xffff at
construction keeps the TNS update thread (registration and self-testing)
from ever starting, while the accept thread is started regardless. -/
theorem init_invalid_config_disables_registration (number tns_pin : Int)
    (h : number ≤ 0 ∨ 0xffffffff < number ∨ tns_pin < 0 ∨ 0xffff < tns_pin) :
    (TelexITelexSrv_init number tns_pin).tns_thread_started = false
    ∧ (TelexITelexSrv_init number tns_pin).accept_thread_started = true := by
  refine ⟨?_, by simp [TelexITelexSrv_init]⟩
  simp only [TelexITelexSrv_init]
  by_cases hp : tns_pin < 0 ∨ (0xffff : Int) < tns_pin
  · simp [hp, pyTruthyOptInt]
  · have hn : number ≤ 0 ∨ (0xffffffff : Int) < number := by
      rcases h with h | h | h | h
      · exact Or.inl h
      · exact Or.inr h
      · exact absurd (Or.inl h) hp
      · exact absurd (Or.inr h) hp
    simp [hp, hn, pyTruthyOptInt]

/-- Witness for C8: number 0 with a valid pin leaves registration disabled
while the accept thread still starts. -/
theorem init_invalid_config_disables_registration_witness :
    (TelexITelexSrv_init 0 5).tns_thread_started = false
    ∧ (TelexITelexSrv_init 0 5).accept_thread_started = true :=
  init_invalid_config_disables_registration 0 5 (Or.inl (by decide))

/-- C3: once the failure counter is at or beyond 12, no inner-loop
iteration probes again and the counter sits at the sentinel 666 from the
next iteration on; a failed registration leaves the counter untouched,
while a successful registration on the sentinel resets it to 0, after
which the very first iteration probes again. -/
theorem tns_selftest_suspension_and_resume (probes : Nat → Bool) (f : Nat)
    (hf : 12 ≤ f) :
    (∀ k, probedAt probes f k = false)
    ∧ (∀ k, tns_inner_run probes f (k + 1) = (666, false))
    ∧ (∀ st, (tns_register_step st none).test_connection_fail
        = st.test_connection_fail)
    ∧ (∀ st ip, st.test_connection_fail = 666 →
        (tns_register_step st (some ip)).test_connection_fail = 0)
    ∧ probedAt probes 0 0 = true := by
  have hrun : ∀ k, tns_inner_run probes f (k + 1) = (666, false) := by
    intro k
    induction k with
    | zero => simp [tns_inner_run, tns_inner_iter, hf]
    | succ k ih =>
      rw [tns_inner_run, ih]
      simp [tns_inner_iter]
  refine ⟨?_, hrun, ?_, ?_, ?_⟩
  · intro k
    cases k with
    | zero => simp [probedAt, tns_inner_run, tns_inner_iter, hf]
    | succ k => simp [probedAt, hrun k, tns_inner_iter]
  · intro st
    rfl
  · intro st ip h
    simp [tns_register_step, h]
  · simp [probedAt, tns_inner_run, tns_inner_iter]

/-- Witness for C3: starting at 12 failures, iteration 0 does not probe,
one iteration later the counter is the sentinel, and a successful
registration on the sentinel resets it to 0. -/
theorem tns_selftest_suspension_and_resume_witness :
    probedAt (fun _ => false) 12 0 = false
    ∧ tns_inner_run (fun _ => false) 12 1 = (666, false)
    ∧ (tns_register_step ⟨3, 666, some "1.2.3.4"⟩
        (some "1.2.3.4")).test_connection_fail = 0 :=
  have h := tns_selftest_suspension_and_resume (fun _ => false) 12 (by decide)
  ⟨h.1 0, h.2.1 0, h.2.2.2.1 ⟨3, 666, some "1.2.3.4"⟩ "1.2.3.4" rfl⟩

/-- Once the inner loop has broken, its state is frozen for all later
iteration counts. -/
theorem tns_inner_run_broken_stable (probes : Nat → Bool) (f0 k : Nat)
    (h : (tns_inner_run probes f0 k).2 = true) :
    ∀ m, tns_inner_run probes f0 (k + m) = tns_inner_run probes f0 k := by
  intro m
  induction m with
  | zero => rfl
  | succ m ih =>
    rw [show k + (m + 1) = (k + m) + 1 from rfl, tns_inner_run, ih]
    simp [h]

/-- C4: an iteration whose probe pushes the counter to exactly 6 breaks
out of the inner loop at once: the loop is marked broken with the counter
at 6 and no later iteration — however many of the 180 remain — probes
again, so the next probe can only come after the outer loop's registration
attempt. -/
theorem tns_break_at_six_forces_registration (probes : Nat → Bool) (f0 k : Nat)
    (hnb : (tns_inner_run probes f0 k).2 = false)
    (hlt : (tns_inner_run probes f0 k).1 < 12)
    (h6 : (tns_inner_iter (tns_inner_run probes f0 k).1 (probes k)).1 = 6) :
    tns_inner_run probes f0 (k + 1) = (6, true)
    ∧ ∀ j, k < j → probedAt probes f0 j = false := by
  have hnotle : ¬ 12 ≤ (tns_inner_run probes f0 k).1 := by omega
  have hiter : tns_inner_iter (tns_inner_run probes f0 k).1 (probes k)
      = (6, true, true) := by
    cases hpk : probes k with
    | true =>
      exfalso
      rw [tns_inner_iter, if_neg hnotle] at h6
      simp [hpk] at h6
    | false =>
      rw [tns_inner_iter, if_neg hnotle] at h6
      rw [tns_inner_iter, if_neg hnotle]
      simp [hpk] at h6 ⊢
      simp [h6]
  have hrun1 : tns_inner_run probes f0 (k + 1) = (6, true) := by
    rw [tns_inner_run]
    simp [hnb, hiter]
  refine ⟨hrun1, ?_⟩
  intro j hj
  obtain ⟨m, rfl⟩ : ∃ m, j = (k + 1) + m := ⟨j - (k + 1), by omega⟩
  have hs := tns_inner_run_broken_stable probes f0 (k + 1) (by rw [hrun1]) m
  rw [probedAt, hs, hrun1]
  simp

/-- Witness for C4: with the counter at 5 and a failing probe at iteration
0, the loop breaks with the counter at 6 and iteration 7 does not probe. -/
theorem tns_break_at_six_forces_registration_witness :
    tns_inner_run (fun _ => false) 5 1 = (6, true)
    ∧ probedAt (fun _ => false) 5 7 = false :=
  have h := tns_break_at_six_forces_registration (fun _ => false) 5 0
    rfl (by decide) (by decide)
  ⟨h.1, h.2 7 (by decide)⟩

end ITelexSrv
